import Mathlib

/-!
Verification of the deduplication and recording engine and the chat
orchestration fallback layer of the career-conversation backend
(`backend/tools.py`, `backend/chat.py`).

The Python module state is embedded as an explicit `GlobalState` value
threaded through the operations; the Python dict `_session_states`
(read through `dict.setdefault` with a fresh default) is embedded as a
total function `String → SessionState` defaulting to the initial state;
the Python set `_recorded_questions` is embedded as an insertion-ordered
duplicate-free list of keys (Python set iteration order is unspecified;
the embedding fixes first-insertion order).  Notifications (`push`) are
collected as a list of message strings instead of performing I/O.
Character classes follow the ASCII fragment of Python's `str.lower`,
`\w` and `\s`, which agree with the source on ASCII input.
-/

/-- Python whitespace class `\s` (ASCII fragment). -/
def isSpaceChar (c : Char) : Bool :=
  c == ' ' || c == '\t' || c == '\n' || c == '\r' ||
  c == Char.ofNat 11 || c == Char.ofNat 12

/-- Python word class `\w` (ASCII fragment): alphanumerics and underscore. -/
def isWordChar (c : Char) : Bool :=
  c.isAlphanum || c == '_'

/-- Embedding of `str.strip()` on the character list: drop leading and
trailing whitespace. -/
def stripChars (l : List Char) : List Char :=
  ((l.dropWhile isSpaceChar).reverse.dropWhile isSpaceChar).reverse

/-- Embedding of `re.sub(r"\s+", " ", ·)`: each maximal whitespace run is
replaced by a single space.  The boolean argument records whether the
previous character belonged to a whitespace run. -/
def collapseWs : Bool → List Char → List Char
  | _, [] => []
  | prevSpace, c :: cs =>
    if isSpaceChar c then
      if prevSpace then collapseWs true cs
      else ' ' :: collapseWs true cs
    else c :: collapseWs false cs

/-- Embedding of `str.strip()` on strings. -/
def pyStrip (s : String) : String :=
  ⟨stripChars s.data⟩

/-- Embedding of `str.lower()` (ASCII fragment, via `Char.toLower`). -/
def pyLower (s : String) : String :=
  ⟨s.data.map Char.toLower⟩

/-- Embedding of `_normalize` in `backend/tools.py`:
`re.sub(r"\s+", " ", re.sub(r"[^\w\s]", "", text.lower())).strip()` —
lower-case, drop every character that is neither a word character nor
whitespace, collapse whitespace runs to single spaces, strip. -/
def pyNormalize (text : String) : String :=
  ⟨stripChars (collapseWs false
    ((text.data.map Char.toLower).filter fun c => isWordChar c || isSpaceChar c))⟩

/-- The contact-detail dedup key in `record_user_details`:
`email.strip().lower()`. -/
def emailKey (email : String) : String :=
  pyLower (pyStrip email)

/-- Embedding of the `_SessionState` dataclass of `backend/tools.py`. -/
structure SessionState where
  notification_sent : Bool
  recorded_email : String
  email_change_count : Nat
  override_used : Bool
deriving DecidableEq

/-- The dataclass defaults of `_SessionState`:
`notification_sent=False, recorded_email="", email_change_count=0,
override_used=False`. -/
def SessionState.init : SessionState :=
  ⟨false, "", 0, false⟩

/-- Outcomes reported in the `recorded` field of the tool results. -/
inductive RecordedOutcome where
  | ok
  | already_recorded
  | corrected
  | suspicious
  | already_overridden
deriving DecidableEq

/-- The module-level mutable state of `backend/tools.py`:
`_session_states` and `_current_session_id` for contact recording,
`_recorded_questions` (set of normalized keys) and
`_recorded_questions_raw` (raw questions in first-seen order) for the
global question registry. -/
structure GlobalState where
  sessions : String → SessionState
  currentSession : String
  qKeys : List String
  qRaw : List String

/-- The process-start state: empty session map (every session reads as
`SessionState.init` until written), empty current session id, empty
question registry. -/
def GlobalState.init : GlobalState :=
  ⟨fun _ => SessionState.init, "", [], []⟩

/-- Embedding of `set_session_id`. -/
def set_session_id (g : GlobalState) (sessionId : String) : GlobalState :=
  { g with currentSession := sessionId }

/-- Store an updated state for the current session (the write-back of the
mutations `record_user_details` performs on the `_SessionState` object). -/
def GlobalState.writeSession (g : GlobalState) (st : SessionState) : GlobalState :=
  { g with sessions := fun s => if s == g.currentSession then st else g.sessions s }

/-- The notification text pushed by `record_user_details`:
`f"Recording \x7bname\x7d with email \x7bemail\x7d and notes \x7bnotes\x7d"`
with the f-string quoting of the source. -/
def userPushMsg (nm email notes : String) : String :=
  "Recording \x27" ++ nm ++ "\x27 with email \x27" ++ email ++ "\x27 and notes \x27" ++ notes ++ "\x27"

/-- Result of one `record_user_details` call: the returned `recorded`
outcome, the module state afterwards, and the notifications pushed during
the call. -/
structure UserRecordResult where
  outcome : RecordedOutcome
  g : GlobalState
  pushes : List String

/-- Embedding of `record_user_details` in `backend/tools.py`.  The Python
defaults are `name="Name not provided"`, `notes="not provided"`,
`override=False`; callers of the embedding pass all arguments
explicitly.  Control flow mirrors the source: the override block first
(early return `already_overridden` when the override was already used,
otherwise reset `notification_sent` and consume the override), then the
dedup block guarded by `notification_sent` (`already_recorded` on a
repeat of the recorded email, `suspicious` once the change count passed
1, `corrected` on the first change), and finally the fresh recording
path that pushes the one notification. -/
def record_user_details (g : GlobalState) (email nm notes : String)
    (override : Bool) : UserRecordResult :=
  let key := emailKey email
  let st0 := g.sessions g.currentSession
  if override && st0.override_used then
    { outcome := .already_overridden, g := g.writeSession st0, pushes := [] }
  else
    let st1 := if override
      then { st0 with notification_sent := false, override_used := true }
      else st0
    if st1.notification_sent then
      if key == st1.recorded_email then
        { outcome := .already_recorded, g := g.writeSession st1, pushes := [] }
      else
        let st2 := { st1 with email_change_count := st1.email_change_count + 1 }
        if st2.email_change_count > 1 then
          { outcome := .suspicious, g := g.writeSession st2, pushes := [] }
        else
          { outcome := .corrected,
            g := g.writeSession { st2 with recorded_email := key }, pushes := [] }
    else
      { outcome := .ok,
        g := g.writeSession
          { st1 with notification_sent := true, recorded_email := key },
        pushes := [userPushMsg nm email notes] }

/-- The notification text pushed by `record_unknown_question`. -/
def questionPushMsg (question : String) : String :=
  "Recording \x27" ++ question ++ "\x27 asked that I couldn\x27t answer"

/-- Result of one `record_unknown_question` call: outcome, the
`recorded_questions` list returned to the caller (`list(_recorded_questions)`
in the source — the normalized-key set, modelled in first-insertion
order), the module state afterwards, and the pushes. -/
structure QuestionRecordResult where
  outcome : RecordedOutcome
  returned : List String
  g : GlobalState
  pushes : List String

/-- Embedding of `record_unknown_question` in `backend/tools.py`: a
duplicate normalized key returns `already_recorded` with the current key
set and no mutation; a fresh key is inserted into the key set, the raw
question appended to `_recorded_questions_raw`, one notification pushed,
and `ok` returned with the updated key set. -/
def record_unknown_question (g : GlobalState) (question : String) :
    QuestionRecordResult :=
  let key := pyNormalize question
  if g.qKeys.contains key then
    { outcome := .already_recorded, returned := g.qKeys, g := g, pushes := [] }
  else
    { outcome := .ok, returned := g.qKeys ++ [key],
      g := { g with qKeys := g.qKeys ++ [key], qRaw := g.qRaw ++ [question] },
      pushes := [questionPushMsg question] }

/-- Embedding of the loop body of `_is_semantically_similar`: the
classifier call on one pair is an oracle returning `some b` when the
call parses to `\x7b"similar": b\x7d` and `none` when it raises (the
`except Exception: continue` path); a `some true` verdict short-circuits,
everything else moves on to the next recorded question. -/
def similarLoop (oracle : String → String → Option Bool) (question : String) :
    List String → Bool
  | [] => false
  | recorded_q :: rest =>
    match oracle recorded_q question with
    | some true => true
    | _ => similarLoop oracle question rest

/-- Embedding of `_is_semantically_similar`: returns false outright when
no question is recorded or no client is configured, otherwise runs the
pairwise loop over the raw recorded questions. -/
def is_semantically_similar (oracle : String → String → Option Bool)
    (clientPresent : Bool) (question : String) (existing : List String) : Bool :=
  if existing.isEmpty || !clientPresent then false
  else similarLoop oracle question existing

/-- Embedding of `check_question_similarity`: the exact normalized-key
membership test first, then the semantic loop over
`_recorded_questions_raw`; the returned `already_recorded` boolean. -/
def check_question_similarity (oracle : String → String → Option Bool)
    (clientPresent : Bool) (g : GlobalState) (question : String) : Bool :=
  let key := pyNormalize question
  if g.qKeys.contains key then true
  else if is_semantically_similar oracle clientPresent question g.qRaw then true
  else false

/-- The model-provider failures classified by the `except` clauses of
`Me.chat` in `backend/chat.py`: `openai.RateLimitError`,
`openai.AuthenticationError`, `openai.APIConnectionError`, and any other
exception carried with its type name and description. -/
inductive ApiError where
  | rateLimit
  | authenticationFailure
  | connectionFailure
  | unexpected (ename edesc : String)
deriving DecidableEq

/-- A tool invocation requested by the model, already parsed from its
JSON arguments.  `handle_tool_call` dispatches by the declared tool
name; a name outside the dispatch table is the `unrecognized` case.
Optional arguments carry the Python keyword-default semantics: an absent
argument falls back to the source defaults
(`name="Name not provided"`, `notes="not provided"`, `override=False`). -/
inductive ToolCall where
  | callRecordUserDetails (email : String) (nm notes : Option String)
      (override : Option Bool)
  | callRecordUnknownQuestion (question : String)
  | callCheckQuestionSimilarity (question : String)
  | unrecognized
deriving DecidableEq

/-- The JSON object a single tool dispatch returns to the model:
the `recorded` dicts of the two recording tools, the similarity verdict,
or the empty object `\x7b\x7d` produced for an unrecognized tool name. -/
inductive ToolResult where
  | userRecorded (outcome : RecordedOutcome)
  | questionRecorded (outcome : RecordedOutcome) (recorded_questions : List String)
  | similarity (question : String) (already_recorded : Bool)
  | emptyResult
deriving DecidableEq

/-- One response of the language model inside the chat loop: a final
content message, a tool-call request, or a raised provider error. -/
inductive ModelStep where
  | final (content : String)
  | toolCalls (calls : List ToolCall)
  | apiError (e : ApiError)

/-- Dispatch of one parsed tool call onto the recording engine, as in
`Me.handle_tool_call`: the result object, the module state afterwards,
and the notifications pushed.  The oracle and client flag stand for the
OpenAI client consulted by `check_question_similarity`. -/
def dispatchTool (oracle : String → String → Option Bool) (clientPresent : Bool)
    (g : GlobalState) : ToolCall → ToolResult × GlobalState × List String
  | .callRecordUserDetails email nm notes ov =>
    let r := record_user_details g email (nm.getD "Name not provided")
      (notes.getD "not provided") (ov.getD false)
    (.userRecorded r.outcome, r.g, r.pushes)
  | .callRecordUnknownQuestion q =>
    let r := record_unknown_question g q
    (.questionRecorded r.outcome r.returned, r.g, r.pushes)
  | .callCheckQuestionSimilarity q =>
    (.similarity q (check_question_similarity oracle clientPresent g q), g, [])
  | .unrecognized => (.emptyResult, g, [])

/-- Embedding of `Me.handle_tool_call`: dispatch each requested call in
order, collecting one tool-result message per invocation. -/
def handle_tool_call (oracle : String → String → Option Bool)
    (clientPresent : Bool) :
    GlobalState → List ToolCall → GlobalState × List String × List ToolResult
  | g, [] => (g, [], [])
  | g, c :: cs =>
    let r := dispatchTool oracle clientPresent g c
    let rest := handle_tool_call oracle clientPresent r.2.1 cs
    (rest.1, r.2.2 ++ rest.2.1, r.1 :: rest.2.2)

/-- The fixed public fallback contact channel named in every failure
reply of `Me.chat`. -/
def fallbackContact : String :=
  "https://linkedin.com/in/alexrabinovichpro"

/-- Operator notification pushed for each error class, with the tag text
of the source. -/
def errorWarning : ApiError → String
  | .rateLimit => "WARNING: OpenAI rate limit or quota exceeded"
  | .authenticationFailure => "WARNING: OpenAI authentication error — check API key"
  | .connectionFailure => "WARNING: OpenAI connection error"
  | .unexpected ename edesc =>
    "WARNING: Unexpected error in chat — " ++ ename ++ ": " ++ edesc

/-- The fixed rate-limit apology of `Me.chat`, up to the fallback
contact reference it ends with. -/
def rateLimitReplyBody : String :=
  "I\x27m sorry, I\x27m unable to respond right now due to high demand. " ++
  "Please try again in a few moments, or reach out directly via " ++
  "LinkedIn: "

/-- User-facing fallback reply returned for each error class; each is the
fixed string of the source and ends with the fallback contact. -/
def errorReply : ApiError → String
  | .rateLimit => rateLimitReplyBody ++ fallbackContact
  | .authenticationFailure =>
    "I\x27m experiencing a technical issue at the moment. " ++
    "Please connect with me directly on " ++
    "LinkedIn: " ++ fallbackContact
  | .connectionFailure =>
    "I\x27m having trouble connecting right now. " ++
    "Please try again shortly, or reach out via " ++
    "LinkedIn: " ++ fallbackContact
  | .unexpected _ _ =>
    "Something unexpected happened on my end. " ++
    "Please try again, or get in touch via " ++
    "LinkedIn: " ++ fallbackContact

/-- Outcome of one `Me.chat` turn: the reply text, the number of model
invocations performed, the notifications pushed during the turn, the
tool results produced, and the module state afterwards. -/
structure ChatResult where
  reply : String
  modelCalls : Nat
  pushes : List String
  toolResults : List ToolResult
  g : GlobalState

/-- The `while not done` loop of `Me.chat`, driven by a script of model
responses consumed one per invocation.  A raised provider error is
caught by the `except` clauses wrapping the loop: the turn ends with the
matching warning push and fixed fallback reply, keeping the pushes of
tool calls already executed.  `none` models a script exhausted while the
loop still awaits a model response. -/
def chatLoop (oracle : String → String → Option Bool) (clientPresent : Bool) :
    List ModelStep → GlobalState → Nat → List String → List ToolResult →
    Option ChatResult
  | [], _, _, _, _ => none
  | step :: rest, g, calls, pushes, results =>
    match step with
    | .final content => some ⟨content, calls + 1, pushes, results, g⟩
    | .apiError e =>
      some ⟨errorReply e, calls + 1, pushes ++ [errorWarning e], results, g⟩
    | .toolCalls tcs =>
      let r := handle_tool_call oracle clientPresent g tcs
      chatLoop oracle clientPresent rest r.1 (calls + 1) (pushes ++ r.2.1)
        (results ++ r.2.2)

/-- Embedding of `Me.chat(message, history, session_id)`: store the
session id in the module-global current-session variable
(`set_session_id`), then run the model loop.  The message and history
only shape the prompt sent to the model, which the response script
abstracts, so they are not parameters of the embedding. -/
def Me.chat (oracle : String → String → Option Bool) (clientPresent : Bool)
    (script : List ModelStep) (g : GlobalState) (sessionId : String) :
    Option ChatResult :=
  chatLoop oracle clientPresent script (set_session_id g sessionId) 0 [] []

/-- Embedding of a call to `Me.chat` that omits the session identifier:
the Python default argument `session_id: str = ""` supplies the empty
string. -/
def Me.chatNoSessionArg (oracle : String → String → Option Bool)
    (clientPresent : Bool) (script : List ModelStep) (g : GlobalState) :
    Option ChatResult :=
  Me.chat oracle clientPresent script g ""

/-- A concrete mid-cycle module state: the current session `"s"` has a
notification already sent for `a@b.com` and the override not yet
consumed. -/
def midCycleState : GlobalState :=
  ⟨fun _ => ⟨true, "a@b.com", 0, false⟩, "s", [], []⟩

/-- A sequence of `record_unknown_question` calls, folding the module
state through each call in order. -/
def runQuestions (g : GlobalState) (qs : List String) : GlobalState :=
  qs.foldl (fun h q => (record_unknown_question h q).g) g

/-- Replace every failing classifier call by an explicit
`\x7b"similar": false\x7d` verdict: the "treated as not similar"
reading of the `except Exception: continue` path. -/
def totalizeOracle (oracle : String → String → Option Bool) :
    String → String → Option Bool :=
  fun a b => some ((oracle a b).getD false)

/-- A model script that requests one `record_user_details` tool call
(with only the email and optional name and notes, no override) and then
finishes with the reply `s`. -/
def oneRecordScript (e nm no s : String) : List ModelStep :=
  [ModelStep.toolCalls [ToolCall.callRecordUserDetails e (some nm) (some no) none],
   ModelStep.final s]

/-- Helper: `record_user_details` with `override=true` on a session whose
override was already consumed returns `already_overridden`, pushes
nothing, keeps the current session id, and leaves that session state
unchanged. -/
theorem record_user_details_overridden_of_used
    (g : GlobalState) (e nm no : String)
    (h : (g.sessions g.currentSession).override_used = true) :
    (record_user_details g e nm no true).outcome
        = RecordedOutcome.already_overridden ∧
    (record_user_details g e nm no true).pushes = [] ∧
    (record_user_details g e nm no true).g.currentSession = g.currentSession ∧
    (record_user_details g e nm no true).g.sessions
        ((record_user_details g e nm no true).g.currentSession)
      = g.sessions g.currentSession := by
  simp [record_user_details, GlobalState.writeSession, h]

/-- Helper: no `record_user_details` call ever resets a consumed
override: `override_used` stays true at the current session after any
further call. -/
theorem record_user_details_override_used_mono
    (g : GlobalState) (e nm no : String) (ov : Bool)
    (h : (g.sessions g.currentSession).override_used = true) :
    ((record_user_details g e nm no ov).g.sessions
        ((record_user_details g e nm no ov).g.currentSession)).override_used
      = true := by
  cases ov with
  | true =>
    rw [(record_user_details_overridden_of_used g e nm no h).2.2.2]
    exact h
  | false =>
    simp only [record_user_details, GlobalState.writeSession, Bool.false_and,
      Bool.and_self, if_false, beq_self_eq_true, if_true]
    split <;> (try split) <;> (try split) <;> (try split) <;> simp [h]

/-- C3: on a session with a notification already sent and the override
not yet consumed, a `record_user_details` call with `override=true`
records again: it returns `ok`, pushes exactly the one notification for
the submitted email (even when it repeats the recorded one), and leaves
`override_used` true; moreover any call with `override=true` on a
session whose override is consumed returns `already_overridden` with no
push and no change to that session state, and no call ever resets a
consumed override. -/
theorem record_user_details_override_resets_cycle
    (g : GlobalState) (e nm no : String)
    (hsent : (g.sessions g.currentSession).notification_sent = true)
    (hused : (g.sessions g.currentSession).override_used = false) :
    (record_user_details g e nm no true).outcome = RecordedOutcome.ok ∧
    (record_user_details g e nm no true).pushes = [userPushMsg nm e no] ∧
    ((record_user_details g e nm no true).g.sessions
        ((record_user_details g e nm no true).g.currentSession)).override_used
      = true ∧
    (∀ (g2 : GlobalState) (e2 nm2 no2 : String),
      (g2.sessions g2.currentSession).override_used = true →
      (record_user_details g2 e2 nm2 no2 true).outcome
          = RecordedOutcome.already_overridden ∧
      (record_user_details g2 e2 nm2 no2 true).pushes = [] ∧
      (record_user_details g2 e2 nm2 no2 true).g.sessions
          ((record_user_details g2 e2 nm2 no2 true).g.currentSession)
        = g2.sessions g2.currentSession) ∧
    (∀ (g2 : GlobalState) (e2 nm2 no2 : String) (ov : Bool),
      (g2.sessions g2.currentSession).override_used = true →
      ((record_user_details g2 e2 nm2 no2 ov).g.sessions
          ((record_user_details g2 e2 nm2 no2 ov).g.currentSession)).override_used
        = true) := by
  refine ⟨?_, ?_, ?_,
    fun g2 e2 nm2 no2 h =>
      ⟨(record_user_details_overridden_of_used g2 e2 nm2 no2 h).1,
       (record_user_details_overridden_of_used g2 e2 nm2 no2 h).2.1,
       (record_user_details_overridden_of_used g2 e2 nm2 no2 h).2.2.2⟩,
    fun g2 e2 nm2 no2 ov h =>
      record_user_details_override_used_mono g2 e2 nm2 no2 ov h⟩ <;>
  simp [record_user_details, GlobalState.writeSession, hused]

/-- Witness for C3 on `midCycleState`, re-recording the same email
`a@b.com` after the override and then attempting a second override. -/
theorem record_user_details_override_resets_cycle_witness :
    (midCycleState.sessions midCycleState.currentSession).notification_sent
        = true ∧
    (midCycleState.sessions midCycleState.currentSession).override_used
        = false ∧
    (record_user_details midCycleState "a@b.com" "N" "x" true).outcome
        = RecordedOutcome.ok ∧
    (record_user_details midCycleState "a@b.com" "N" "x" true).pushes
        = [userPushMsg "N" "a@b.com" "x"] ∧
    (record_user_details
        (record_user_details midCycleState "a@b.com" "N" "x" true).g
        "b@b.com" "M" "y" true).outcome
        = RecordedOutcome.already_overridden ∧
    (record_user_details
        (record_user_details midCycleState "a@b.com" "N" "x" true).g
        "b@b.com" "M" "y" true).pushes = [] := by
  have h := record_user_details_override_resets_cycle midCycleState
    "a@b.com" "N" "x" (by decide) (by decide)
  exact ⟨by decide, by decide, h.1, h.2.1,
    (h.2.2.2.1 _ "b@b.com" "M" "y" h.2.2.1).1,
    (h.2.2.2.1 _ "b@b.com" "M" "y" h.2.2.1).2.1⟩

/-- Helper: a `record_user_details` call touches only the current
session: every other session key reads the same state afterwards, and
the current session id is unchanged. -/
theorem record_user_details_preserves_other_sessions
    (g : GlobalState) (e nm no : String) (ov : Bool) (s : String)
    (hs : s ≠ g.currentSession) :
    (record_user_details g e nm no ov).g.sessions s = g.sessions s ∧
    (record_user_details g e nm no ov).g.currentSession = g.currentSession := by
  simp only [record_user_details, GlobalState.writeSession]
  split <;> (try split) <;> (try split) <;> (try split) <;> (try split) <;>
    (try split) <;> simp [hs]

/-- Helper: the outcome and the pushes of a `record_user_details` call
depend only on the state of the current session, not on the rest of the
module state. -/
theorem record_user_details_observables_of_session
    (g g' : GlobalState) (e nm no : String) (ov : Bool)
    (h : g.sessions g.currentSession = g'.sessions g'.currentSession) :
    (record_user_details g e nm no ov).outcome
        = (record_user_details g' e nm no ov).outcome ∧
    (record_user_details g e nm no ov).pushes
        = (record_user_details g' e nm no ov).pushes := by
  simp only [record_user_details, GlobalState.writeSession, h]
  split <;> (try split) <;> (try split) <;> (try split) <;> (try split) <;>
    (try split) <;> simp_all

/-- C8: contact-detail deduplication is session-isolated.  For distinct
session identifiers with fresh states, recording the same email under
each yields `ok` with one notification in each; and in full generality a
recording performed under one session identifier does not change the
outcome or the pushes of any later `record_user_details` call performed
under the other. -/
theorem record_user_details_session_isolation
    (g : GlobalState) (sid1 sid2 e nm1 no1 nm2 no2 : String)
    (hne : sid1 ≠ sid2)
    (h1 : g.sessions sid1 = SessionState.init)
    (h2 : g.sessions sid2 = SessionState.init) :
    (record_user_details (set_session_id g sid1) e nm1 no1 false).outcome
        = RecordedOutcome.ok ∧
    (record_user_details (set_session_id g sid1) e nm1 no1 false).pushes.length
        = 1 ∧
    (record_user_details
        (set_session_id
          (record_user_details (set_session_id g sid1) e nm1 no1 false).g sid2)
        e nm2 no2 false).outcome = RecordedOutcome.ok ∧
    (record_user_details
        (set_session_id
          (record_user_details (set_session_id g sid1) e nm1 no1 false).g sid2)
        e nm2 no2 false).pushes.length = 1 ∧
    (∀ (ea na xa eb nb xb : String) (ova ovb : Bool),
      (record_user_details
          (set_session_id
            (record_user_details (set_session_id g sid1) ea na xa ova).g sid2)
          eb nb xb ovb).outcome
        = (record_user_details (set_session_id g sid2) eb nb xb ovb).outcome ∧
      (record_user_details
          (set_session_id
            (record_user_details (set_session_id g sid1) ea na xa ova).g sid2)
          eb nb xb ovb).pushes
        = (record_user_details (set_session_id g sid2) eb nb xb ovb).pushes) := by
  have hother : ∀ (ea na xa : String) (ova : Bool),
      (record_user_details (set_session_id g sid1) ea na xa ova).g.sessions sid2
        = g.sessions sid2 := by
    intro ea na xa ova
    exact (record_user_details_preserves_other_sessions
      (set_session_id g sid1) ea na xa ova sid2 (Ne.symm hne)).1
  refine ⟨?_, ?_, ?_, ?_, fun ea na xa eb nb xb ova ovb => ?_⟩
  · simp [record_user_details, set_session_id, h1, SessionState.init]
  · simp [record_user_details, set_session_id, h1, SessionState.init]
  · have hobs := record_user_details_observables_of_session
      (set_session_id
        (record_user_details (set_session_id g sid1) e nm1 no1 false).g sid2)
      (set_session_id g sid2) e nm2 no2 false
      (by simp only [set_session_id]; exact hother e nm1 no1 false)
    rw [hobs.1]
    simp [record_user_details, set_session_id, h2, SessionState.init]
  · have hobs := record_user_details_observables_of_session
      (set_session_id
        (record_user_details (set_session_id g sid1) e nm1 no1 false).g sid2)
      (set_session_id g sid2) e nm2 no2 false
      (by simp only [set_session_id]; exact hother e nm1 no1 false)
    rw [hobs.2]
    simp [record_user_details, set_session_id, h2, SessionState.init]
  · exact record_user_details_observables_of_session _ _ eb nb xb ovb
      (by simp only [set_session_id]; exact hother ea na xa ova)

/-- Witness for C8 at sessions `"session-A"` and `"session-B"`, both
recording `a@b.com`. -/
theorem record_user_details_session_isolation_witness :
    (record_user_details (set_session_id GlobalState.init "session-A")
        "a@b.com" "A" "x" false).outcome = RecordedOutcome.ok ∧
    (record_user_details
        (set_session_id
          (record_user_details (set_session_id GlobalState.init "session-A")
            "a@b.com" "A" "x" false).g "session-B")
        "a@b.com" "B" "y" false).outcome = RecordedOutcome.ok := by
  have h := record_user_details_session_isolation GlobalState.init
    "session-A" "session-B" "a@b.com" "A" "x" "B" "y"
    (by decide) rfl rfl
  exact ⟨h.1, h.2.2.1⟩

/-- C1: for any session identifier whose state is still the fresh initial
state, two successive `record_user_details` calls with emails that
normalize (strip, lower-case) to the same key and no override return
`ok` on the first call and `already_recorded` on the second, and exactly
one notification is pushed across the two calls. -/
theorem record_user_details_repeat_dedup
    (g : GlobalState) (sid e1 e2 nm1 no1 nm2 no2 : String)
    (hfresh : g.sessions sid = SessionState.init)
    (hkey : emailKey e1 = emailKey e2) :
    (record_user_details (set_session_id g sid) e1 nm1 no1 false).outcome
        = RecordedOutcome.ok ∧
    (record_user_details
        (record_user_details (set_session_id g sid) e1 nm1 no1 false).g
        e2 nm2 no2 false).outcome = RecordedOutcome.already_recorded ∧
    ((record_user_details (set_session_id g sid) e1 nm1 no1 false).pushes ++
      (record_user_details
        (record_user_details (set_session_id g sid) e1 nm1 no1 false).g
        e2 nm2 no2 false).pushes).length = 1 := by
  simp [record_user_details, set_session_id, GlobalState.writeSession, hfresh,
    SessionState.init, ← hkey]

/-- Witness for C1 at session `"s1"`, emails `" A@b.com"` and `"a@b.com"`. -/
theorem record_user_details_repeat_dedup_witness :
    (record_user_details (set_session_id GlobalState.init "s1")
        " A@b.com" "Alice" "hi" false).outcome = RecordedOutcome.ok ∧
    (record_user_details
        (record_user_details (set_session_id GlobalState.init "s1")
          " A@b.com" "Alice" "hi" false).g
        "a@b.com" "Al" "n" false).outcome = RecordedOutcome.already_recorded ∧
    ((record_user_details (set_session_id GlobalState.init "s1")
        " A@b.com" "Alice" "hi" false).pushes ++
      (record_user_details
        (record_user_details (set_session_id GlobalState.init "s1")
          " A@b.com" "Alice" "hi" false).g
        "a@b.com" "Al" "n" false).pushes).length = 1 :=
  record_user_details_repeat_dedup GlobalState.init "s1" " A@b.com" "a@b.com"
    "Alice" "hi" "Al" "n" rfl (by decide)

/-- C2: from a fresh session, a first recording succeeds (`ok`), a second
call with a different normalized email returns `corrected` and updates
the recorded email to the new key, a third call with an email distinct
from both returns `suspicious` and leaves the recorded email unchanged
(still the corrected key), and exactly one notification is pushed across
the three calls. -/
theorem record_user_details_correction_then_suspicious
    (g : GlobalState) (sid e1 e2 e3 nm1 no1 nm2 no2 nm3 no3 : String)
    (hfresh : g.sessions sid = SessionState.init)
    (h12 : emailKey e1 ≠ emailKey e2)
    (h23 : emailKey e2 ≠ emailKey e3)
    (h13 : emailKey e1 ≠ emailKey e3) :
    (record_user_details (set_session_id g sid) e1 nm1 no1 false).outcome
        = RecordedOutcome.ok ∧
    (record_user_details
        (record_user_details (set_session_id g sid) e1 nm1 no1 false).g
        e2 nm2 no2 false).outcome = RecordedOutcome.corrected ∧
    (record_user_details
        (record_user_details
          (record_user_details (set_session_id g sid) e1 nm1 no1 false).g
          e2 nm2 no2 false).g
        e3 nm3 no3 false).outcome = RecordedOutcome.suspicious ∧
    ((record_user_details
        (record_user_details
          (record_user_details (set_session_id g sid) e1 nm1 no1 false).g
          e2 nm2 no2 false).g
        e3 nm3 no3 false).g.sessions sid).recorded_email = emailKey e2 ∧
    ((record_user_details (set_session_id g sid) e1 nm1 no1 false).pushes ++
      (record_user_details
        (record_user_details (set_session_id g sid) e1 nm1 no1 false).g
        e2 nm2 no2 false).pushes ++
      (record_user_details
        (record_user_details
          (record_user_details (set_session_id g sid) e1 nm1 no1 false).g
          e2 nm2 no2 false).g
        e3 nm3 no3 false).pushes).length = 1 := by
  simp [record_user_details, set_session_id, GlobalState.writeSession, hfresh,
    SessionState.init, Ne.symm h12, Ne.symm h23, Ne.symm h13]

/-- Witness for C2 at session `"s1"`, emails `a@b.com`, `c@b.com`,
`d@b.com`. -/
theorem record_user_details_correction_then_suspicious_witness :
    (record_user_details (set_session_id GlobalState.init "s1")
        "a@b.com" "A" "x" false).outcome = RecordedOutcome.ok ∧
    (record_user_details
        (record_user_details (set_session_id GlobalState.init "s1")
          "a@b.com" "A" "x" false).g
        "c@b.com" "B" "y" false).outcome = RecordedOutcome.corrected ∧
    (record_user_details
        (record_user_details
          (record_user_details (set_session_id GlobalState.init "s1")
            "a@b.com" "A" "x" false).g
          "c@b.com" "B" "y" false).g
        "d@b.com" "C" "z" false).outcome = RecordedOutcome.suspicious ∧
    ((record_user_details
        (record_user_details
          (record_user_details (set_session_id GlobalState.init "s1")
            "a@b.com" "A" "x" false).g
          "c@b.com" "B" "y" false).g
        "d@b.com" "C" "z" false).g.sessions "s1").recorded_email
      = emailKey "c@b.com" ∧
    ((record_user_details (set_session_id GlobalState.init "s1")
        "a@b.com" "A" "x" false).pushes ++
      (record_user_details
        (record_user_details (set_session_id GlobalState.init "s1")
          "a@b.com" "A" "x" false).g
        "c@b.com" "B" "y" false).pushes ++
      (record_user_details
        (record_user_details
          (record_user_details (set_session_id GlobalState.init "s1")
            "a@b.com" "A" "x" false).g
          "c@b.com" "B" "y" false).g
        "d@b.com" "C" "z" false).pushes).length = 1 :=
  record_user_details_correction_then_suspicious GlobalState.init "s1"
    "a@b.com" "c@b.com" "d@b.com" "A" "x" "B" "y" "C" "z" rfl
    (by decide) (by decide) (by decide)

/-- Helper: one `record_unknown_question` call keeps every present key
and never shrinks the key count. -/
theorem record_unknown_question_step_mono (g : GlobalState) (q : String) :
    (∀ k, k ∈ g.qKeys → k ∈ (record_unknown_question g q).g.qKeys) ∧
    g.qKeys.length ≤ (record_unknown_question g q).g.qKeys.length := by
  simp only [record_unknown_question]
  split <;> simp_all [List.mem_append]

/-- Helper: key preservation and count monotonicity extend to any
sequence of `record_unknown_question` calls. -/
theorem runQuestions_mono (g : GlobalState) (qs : List String) :
    (∀ k, k ∈ g.qKeys → k ∈ (runQuestions g qs).qKeys) ∧
    g.qKeys.length ≤ (runQuestions g qs).qKeys.length := by
  induction qs generalizing g with
  | nil => simp [runQuestions]
  | cons q qs ih =>
    have h1 := record_unknown_question_step_mono g q
    have h2 := ih (record_unknown_question g q).g
    exact ⟨fun k hk => h2.1 k (h1.1 k hk), le_trans h1.2 h2.2⟩

/-- C6: the global recorded-question registry grows monotonically: a
normalized key present before a `record_unknown_question` call is still
present after it and after any further sequence of calls, and the key
count never decreases, per call and along any sequence. -/
theorem record_unknown_question_registry_monotone
    (g : GlobalState) (qs : List String) (q k : String)
    (hk : k ∈ g.qKeys) :
    k ∈ (record_unknown_question g q).g.qKeys ∧
    g.qKeys.length ≤ (record_unknown_question g q).g.qKeys.length ∧
    k ∈ (runQuestions g qs).qKeys ∧
    g.qKeys.length ≤ (runQuestions g qs).qKeys.length :=
  ⟨(record_unknown_question_step_mono g q).1 k hk,
   (record_unknown_question_step_mono g q).2,
   (runQuestions_mono g qs).1 k hk,
   (runQuestions_mono g qs).2⟩

/-- Witness for C6: key `"what is 42"` stays recorded through a further
call and a further two-call sequence. -/
theorem record_unknown_question_registry_monotone_witness :
    "what is 42" ∈ (record_unknown_question GlobalState.init "What is 42?").g.qKeys ∧
    "what is 42" ∈ (record_unknown_question
        (record_unknown_question GlobalState.init "What is 42?").g
        "Another one?").g.qKeys ∧
    "what is 42" ∈ (runQuestions
        (record_unknown_question GlobalState.init "What is 42?").g
        ["Another one?", "what is 42"]).qKeys := by
  have h := record_unknown_question_registry_monotone
    (record_unknown_question GlobalState.init "What is 42?").g
    ["Another one?", "what is 42"] "Another one?" "what is 42" (by decide)
  exact ⟨by decide, h.1, h.2.2.1⟩

/-- C7: question normalization lower-cases, strips punctuation and
collapses whitespace; recording a question whose normalized key is not
yet registered and then any case- or punctuation-variant with the same
normalized key yields `ok` then `already_recorded`, with exactly one
notification pushed across the two calls. -/
theorem record_unknown_question_variant_dedup
    (g : GlobalState) (q1 q2 : String)
    (hkey : pyNormalize q1 = pyNormalize q2)
    (hfresh : pyNormalize q1 ∉ g.qKeys) :
    (record_unknown_question g q1).outcome = RecordedOutcome.ok ∧
    (record_unknown_question (record_unknown_question g q1).g q2).outcome
        = RecordedOutcome.already_recorded ∧
    ((record_unknown_question g q1).pushes ++
      (record_unknown_question (record_unknown_question g q1).g q2).pushes).length
      = 1 := by
  simp [record_unknown_question, hfresh, ← hkey]

/-- Witness for C7 at `"What is 42?"` and its case and punctuation
variant `"what is 42"`, from the empty registry. -/
theorem record_unknown_question_variant_dedup_witness :
    (record_unknown_question GlobalState.init "What is 42?").outcome
        = RecordedOutcome.ok ∧
    (record_unknown_question
        (record_unknown_question GlobalState.init "What is 42?").g
        "what is 42").outcome = RecordedOutcome.already_recorded ∧
    ((record_unknown_question GlobalState.init "What is 42?").pushes ++
      (record_unknown_question
        (record_unknown_question GlobalState.init "What is 42?").g
        "what is 42").pushes).length = 1 :=
  record_unknown_question_variant_dedup GlobalState.init "What is 42?"
    "what is 42" (by decide) (by decide)

/-- C4 counterexample: at question `"What is 42?"` from the empty
registry, the returned `recorded_questions` value is the normalized-key
set `["what is 42"]`, which differs from the registry's raw-question
sequence `["What is 42?"]` and does not contain the newly appended raw
question, so the operation does not return the raw-question sequence. -/
theorem record_unknown_question_not_raw_sequence :
    (record_unknown_question GlobalState.init "What is 42?").returned
        ≠ (record_unknown_question GlobalState.init "What is 42?").g.qRaw ∧
    "What is 42?" ∉ (record_unknown_question GlobalState.init "What is 42?").returned := by
  decide

/-- C4 amended: every `record_unknown_question` call returns, alongside
its outcome, the registry's normalized-key set as a list (`list` of the
Python set; the embedding fixes first-insertion order), not the raw
question strings: the duplicate branch returns the current key list with
no mutation and no push, the fresh branch returns the key list with the
newly inserted normalized key appended, while the raw question is
appended to the separate raw sequence. -/
theorem record_unknown_question_returns_key_list
    (g : GlobalState) (q : String) :
    (pyNormalize q ∈ g.qKeys →
      (record_unknown_question g q).outcome = RecordedOutcome.already_recorded ∧
      (record_unknown_question g q).returned = g.qKeys ∧
      (record_unknown_question g q).g = g ∧
      (record_unknown_question g q).pushes = []) ∧
    (pyNormalize q ∉ g.qKeys →
      (record_unknown_question g q).outcome = RecordedOutcome.ok ∧
      (record_unknown_question g q).returned = g.qKeys ++ [pyNormalize q] ∧
      (record_unknown_question g q).g.qKeys = g.qKeys ++ [pyNormalize q] ∧
      (record_unknown_question g q).g.qRaw = g.qRaw ++ [q] ∧
      (record_unknown_question g q).pushes = [questionPushMsg q]) := by
  constructor <;> intro h <;> simp [record_unknown_question, h]

/-- Witness for C4 (amended): the fresh branch at `"What is 42?"` from
the empty registry and the duplicate branch at its variant
`"what is 42"` afterwards. -/
theorem record_unknown_question_returns_key_list_witness :
    (record_unknown_question GlobalState.init "What is 42?").returned
        = [pyNormalize "What is 42?"] ∧
    (record_unknown_question
        (record_unknown_question GlobalState.init "What is 42?").g
        "what is 42").returned
      = (record_unknown_question GlobalState.init "What is 42?").g.qKeys := by
  constructor
  · exact ((record_unknown_question_returns_key_list GlobalState.init
      "What is 42?").2 (by decide)).2.1
  · exact ((record_unknown_question_returns_key_list
      (record_unknown_question GlobalState.init "What is 42?").g
      "what is 42").1 (by decide)).2.1

/-- Helper: the pairwise semantic loop succeeds exactly when some
recorded question draws a `some true` verdict from the oracle; `none`
verdicts (raised exceptions) and `some false` verdicts alike just move
on to the next candidate. -/
theorem similarLoop_eq_true_iff (oracle : String → String → Option Bool)
    (q : String) (l : List String) :
    similarLoop oracle q l = true ↔ ∃ r ∈ l, oracle r q = some true := by
  induction l with
  | nil => simp [similarLoop]
  | cons r rest ih =>
    simp only [similarLoop]
    cases h : oracle r q with
    | none => simp [h, ih]
    | some b => cases b <;> simp [h, ih]

/-- Helper: `is_semantically_similar` succeeds exactly when the client is
present and some recorded raw question draws a `some true` verdict. -/
theorem is_semantically_similar_eq_true_iff
    (oracle : String → String → Option Bool) (clientPresent : Bool)
    (q : String) (l : List String) :
    is_semantically_similar oracle clientPresent q l = true ↔
      (clientPresent = true ∧ ∃ r ∈ l, oracle r q = some true) := by
  cases clientPresent <;> cases l <;>
    simp [is_semantically_similar, similarLoop_eq_true_iff]

/-- Helper: an oracle verdict survives totalization exactly when it was
`some true`; failures become explicit `some false` verdicts. -/
theorem totalizeOracle_some_true (oracle : String → String → Option Bool)
    (a b : String) :
    totalizeOracle oracle a b = some true ↔ oracle a b = some true := by
  unfold totalizeOracle
  cases h : oracle a b with
  | none => simp
  | some x => cases x <;> simp

/-- C5: `check_question_similarity` is total over a fallible classifier —
its verdict is unchanged if every failing comparison is replaced by an
explicit not-similar verdict (failures are swallowed and treated as not
similar, never escaping the operation); the result is true exactly when
the exact normalized-key membership test succeeds or the client is
present and some pairwise comparison returns similar; and on an exact
key hit the result is true for every oracle whatsoever, the membership
test deciding before any model call can matter. -/
theorem check_question_similarity_spec
    (oracle : String → String → Option Bool) (clientPresent : Bool)
    (g : GlobalState) (q : String) :
    check_question_similarity oracle clientPresent g q
        = check_question_similarity (totalizeOracle oracle) clientPresent g q ∧
    (check_question_similarity oracle clientPresent g q = true ↔
      (pyNormalize q ∈ g.qKeys ∨
        (clientPresent = true ∧ ∃ r ∈ g.qRaw, oracle r q = some true))) ∧
    (pyNormalize q ∈ g.qKeys →
      ∀ oracle2 : String → String → Option Bool,
        check_question_similarity oracle2 clientPresent g q = true) := by
  have hchar : ∀ (o : String → String → Option Bool),
      check_question_similarity o clientPresent g q = true ↔
        (pyNormalize q ∈ g.qKeys ∨
          (clientPresent = true ∧ ∃ r ∈ g.qRaw, o r q = some true)) := by
    intro o
    by_cases hmem : pyNormalize q ∈ g.qKeys <;>
      simp [check_question_similarity, hmem, is_semantically_similar_eq_true_iff]
  refine ⟨?_, hchar oracle, fun hmem oracle2 => ?_⟩
  · have h1 := hchar oracle
    have h2 := hchar (totalizeOracle oracle)
    rw [Bool.eq_iff_iff, h1, h2]
    constructor <;> intro hc <;>
      rcases hc with hc | ⟨hcl, r, hr, ho⟩ <;>
      first
        | exact Or.inl hc
        | exact Or.inr ⟨hcl, r, hr, by
            rw [totalizeOracle_some_true] at *
            exact ho⟩
  · exact (hchar oracle2).mpr (Or.inl hmem)

/-- Witness for C5 on a registry holding `"what is 42"`: the exact-hit
path is oracle-independent even under an always-failing oracle. -/
theorem check_question_similarity_spec_witness :
    check_question_similarity (fun _ _ => none) true
        (record_unknown_question GlobalState.init "What is 42?").g
        "WHAT is 42??" = true := by
  have h := check_question_similarity_spec (fun _ _ => some false) true
    (record_unknown_question GlobalState.init "What is 42?").g "WHAT is 42??"
  exact h.2.2 (by decide) (fun _ _ => none)

/-- C9: when the model invocation raises a rate-limit error, the turn
ends at once: the result carries exactly one operator notification and
it is the rate-limit warning tag, the reply is the fixed apology ending
in the fallback contact reference, the model was invoked exactly once
(no automatic retry, whatever responses a retry would have found), no
tool result is produced, and the recording state is untouched. -/
theorem chat_rate_limit_single_warning
    (oracle : String → String → Option Bool) (clientPresent : Bool)
    (rest : List ModelStep) (g : GlobalState) (sid : String) :
    Me.chat oracle clientPresent
        (ModelStep.apiError ApiError.rateLimit :: rest) g sid
      = some { reply := errorReply ApiError.rateLimit,
               modelCalls := 1,
               pushes := [errorWarning ApiError.rateLimit],
               toolResults := [],
               g := set_session_id g sid } ∧
    errorReply ApiError.rateLimit = rateLimitReplyBody ++ fallbackContact := by
  exact ⟨rfl, rfl⟩

/-- C10: a `Me.chat` call that omits the session identifier runs with the
empty-string session id, so every such caller reads and writes the one
session keyed `""`: a turn whose model records an email maps exactly
onto `record_user_details` under session `""`, and with that session
fresh, a first such turn yields the `ok` tool outcome while a second
turn from any caller also omitting the session id and recording the same
email yields `already_recorded` — the two callers deduplicate against
each other as one session. -/
theorem chat_omitted_session_shares_state
    (oracle : String → String → Option Bool) (clientPresent : Bool)
    (g : GlobalState) (e nm no : String)
    (hfresh : g.sessions "" = SessionState.init) :
    (∀ (script : List ModelStep) (g0 : GlobalState),
      Me.chatNoSessionArg oracle clientPresent script g0
        = Me.chat oracle clientPresent script g0 "") ∧
    (∀ (g0 : GlobalState) (s : String),
      Me.chatNoSessionArg oracle clientPresent (oneRecordScript e nm no s) g0
        = some { reply := s,
                 modelCalls := 2,
                 pushes := (record_user_details (set_session_id g0 "")
                   e nm no false).pushes,
                 toolResults := [ToolResult.userRecorded
                   (record_user_details (set_session_id g0 "")
                     e nm no false).outcome],
                 g := (record_user_details (set_session_id g0 "")
                   e nm no false).g }) ∧
    (record_user_details (set_session_id g "") e nm no false).outcome
        = RecordedOutcome.ok ∧
    (record_user_details
        (set_session_id
          (record_user_details (set_session_id g "") e nm no false).g "")
        e nm no false).outcome = RecordedOutcome.already_recorded := by
  refine ⟨fun script g0 => rfl, fun g0 s => ?_, ?_, ?_⟩
  · simp [Me.chatNoSessionArg, Me.chat, chatLoop, oneRecordScript,
      handle_tool_call, dispatchTool]
  · simp [record_user_details, set_session_id, hfresh, SessionState.init]
  · simp [record_user_details, set_session_id, GlobalState.writeSession,
      hfresh, SessionState.init]

/-- Witness for C10 from the process-start state with email `a@b.com`:
two session-omitting turns, the second deduplicating against the
first. -/
theorem chat_omitted_session_shares_state_witness :
    (record_user_details (set_session_id GlobalState.init "")
        "a@b.com" "A" "x" false).outcome = RecordedOutcome.ok ∧
    (record_user_details
        (set_session_id
          (record_user_details (set_session_id GlobalState.init "")
            "a@b.com" "A" "x" false).g "")
        "a@b.com" "A" "x" false).outcome
      = RecordedOutcome.already_recorded ∧
    Me.chatNoSessionArg (fun _ _ => none) true
        (oneRecordScript "a@b.com" "A" "x" "done") GlobalState.init
      = some { reply := "done",
               modelCalls := 2,
               pushes := (record_user_details (set_session_id GlobalState.init "")
                 "a@b.com" "A" "x" false).pushes,
               toolResults := [ToolResult.userRecorded
                 (record_user_details (set_session_id GlobalState.init "")
                   "a@b.com" "A" "x" false).outcome],
               g := (record_user_details (set_session_id GlobalState.init "")
                 "a@b.com" "A" "x" false).g } := by
  have h := chat_omitted_session_shares_state (fun _ _ => none) true
    GlobalState.init "a@b.com" "A" "x" rfl
  exact ⟨h.2.2.1, h.2.2.2, h.2.1 GlobalState.init "done"⟩
